import Mathlib

/-!
Verification development for the form-builder evaluation and transition engine.

The definitions below are a shallow embedding of the server code:
the conditional-rule evaluator and validation routine of the submission
form page, the submission-number generation hook of the Submission model,
the permission methods of the Form model, and the submission controller
endpoints updateSubmissionStatus and deleteSubmission.

Modelling conventions:
- JavaScript runtime values are modelled by the inductive type Value.
  Numbers are modelled by rationals, so float rounding and NaN payloads
  are abstracted; NaN results of parseFloat are modelled by Option.none.
- Strict equality on two arrays is reference equality in JavaScript; a
  configured rule value and a form-data value are distinct objects, so
  the model returns false for array operands of strict equality.
- Database documents are modelled as Lean structures and a collection as
  a list of documents; the regex engine and URL parser of the browser are
  passed in as function arguments.
- Timestamps are modelled as an abstract Nat clock value passed in.
-/

namespace FormBuilder

/-- A decimal number, the value mant divided by ten to the scale. Number
literals in form configs and form data are decimal, so this represents
them exactly; float rounding is outside the model. -/
structure DecNum where
  mant : Int
  scale : Nat := 0
deriving DecidableEq

/-- Numeric strict comparison of two decimal numbers. -/
def decLt (a b : DecNum) : Bool :=
  a.mant * (10 : Int) ^ b.scale < b.mant * (10 : Int) ^ a.scale

/-- Numeric equality of two decimal numbers, as strict equality compares
two JavaScript numbers by value. -/
def decEqNum (a b : DecNum) : Bool :=
  a.mant * (10 : Int) ^ b.scale = b.mant * (10 : Int) ^ a.scale

/-- A JavaScript-like runtime value as stored in form data and rule configs. -/
inductive Value where
  | vUndef
  | vNull
  | vBool (b : Bool)
  | vNum (n : DecNum)
  | vStr (s : String)
  | vArr (elems : List Value)

/-- Character-list test: does the second list start with the first. -/
def isPrefixL : List Char → List Char → Bool
  | [], _ => true
  | _ :: _, [] => false
  | a :: as, b :: bs => a = b && isPrefixL as bs

/-- Substring containment on character lists, modelling String.includes. -/
def containsL (needle : List Char) : List Char → Bool
  | [] => isPrefixL needle []
  | c :: rest => isPrefixL needle (c :: rest) || containsL needle rest

/-- Models the JavaScript String.includes method. -/
def strContains (hay needle : String) : Bool :=
  containsL needle.data hay.data

/-- Numeric value of a list of decimal digit characters. -/
def digitsVal (cs : List Char) : Nat :=
  cs.foldl (fun acc c => acc * 10 + (c.toNat - 48)) 0

/-- Renders a decimal number the way JavaScript renders an integral
number. The rendering of a non-integral number is abstracted; no claim
depends on it. -/
def jsNumToString (n : DecNum) : String :=
  if n.scale = 0 then toString n.mant
  else toString n.mant ++ "e-" ++ toString n.scale

mutual
/-- Models JavaScript string coercion of a value (String(v) and v.toString()). -/
def toStringV : Value → String
  | .vUndef => "undefined"
  | .vNull => "null"
  | .vBool b => if b then "true" else "false"
  | .vNum n => jsNumToString n
  | .vStr s => s
  | .vArr l => String.intercalate "," (toStringL l)

/-- String coercion of each element of a list of values. -/
def toStringL : List Value → List String
  | [] => []
  | v :: vs => toStringV v :: toStringL vs
end

/-- Models JavaScript parseFloat on a string: optional leading whitespace
and sign, then a decimal-literal prefix; none models NaN. -/
def parseFloatS (s : String) : Option DecNum :=
  let cs := s.data.dropWhile (fun c => c = ' ' || c = '\t' || c = '\n')
  let signed : Bool × List Char :=
    match cs with
    | '-' :: rest => (true, rest)
    | '+' :: rest => (false, rest)
    | _ => (false, cs)
  let intPart := signed.2.takeWhile Char.isDigit
  let rest := signed.2.dropWhile Char.isDigit
  let fracPart : List Char :=
    match rest with
    | '.' :: r => r.takeWhile Char.isDigit
    | _ => []
  if intPart.isEmpty && fracPart.isEmpty then none
  else
    let m : Nat := digitsVal (intPart ++ fracPart)
    some { mant := if signed.1 then -(m : Int) else (m : Int), scale := fracPart.length }

/-- Models JavaScript parseFloat applied to an arbitrary value: the value
is coerced to a string first; null, undefined and booleans give NaN. -/
def parseFloatV : Value → Option DecNum
  | .vNum n => some n
  | .vStr s => parseFloatS s
  | .vArr l => parseFloatS (toStringV (.vArr l))
  | _ => none

/-- Models JavaScript strict equality on the value types that occur in rule
configs and form data. Two distinct array objects are never strictly equal
in JavaScript (reference equality), so array operands give false. -/
def strictEq : Value → Value → Bool
  | .vUndef, .vUndef => true
  | .vNull, .vNull => true
  | .vBool a, .vBool b => a = b
  | .vNum a, .vNum b => decEqNum a b
  | .vStr a, .vStr b => a = b
  | _, _ => false

/-- Models JavaScript truthiness of a value. -/
def truthy : Value → Bool
  | .vUndef => false
  | .vNull => false
  | .vBool b => b
  | .vNum n => if n.mant = 0 then false else true
  | .vStr s => if s = "" then false else true
  | .vArr _ => true

/-- One conditional rule of a field, from the conditional.rules schema:
a source field id, an operator name and a comparison value. -/
structure CondRule where
  field : String
  operator : String
  value : Value

/-- The conditional block of a field: enabled flag, rule list and the
combining logical operator, per the field schema in the Form model. -/
structure Conditional where
  enabled : Bool
  rules : List CondRule
  logicalOperator : String

/-- One rule of evaluateCondition in the submission form page: the switch
over rule.operator. The default branch of the switch returns true. -/
def evalRule (data : String → Value) (r : CondRule) : Bool :=
  if r.operator = "equals" then strictEq (data r.field) r.value
  else if r.operator = "not_equals" then ! strictEq (data r.field) r.value
  else if r.operator = "contains" then
    match data r.field with
    | .vUndef => false
    | .vNull => false
    | v => strContains (toStringV v) (toStringV r.value)
  else if r.operator = "not_contains" then
    match data r.field with
    | .vUndef => true
    | .vNull => true
    | v => ! strContains (toStringV v) (toStringV r.value)
  else if r.operator = "greater_than" then
    match parseFloatV (data r.field), parseFloatV r.value with
    | some a, some b => decLt b a
    | _, _ => false
  else if r.operator = "less_than" then
    match parseFloatV (data r.field), parseFloatV r.value with
    | some a, some b => decLt a b
    | _, _ => false
  else if r.operator = "is_empty" then
    ! truthy (data r.field) ||
      (match data r.field with | .vArr l => l.isEmpty | _ => false)
  else if r.operator = "is_not_empty" then
    truthy (data r.field) &&
      (match data r.field with | .vArr l => ! l.isEmpty | _ => true)
  else if r.operator = "in" then
    match r.value with
    | .vArr l => l.any (fun x => strictEq x (data r.field))
    | .vStr s => strContains s (toStringV (data r.field))
    | _ => false
  else if r.operator = "not_in" then
    ! (match r.value with
       | .vArr l => l.any (fun x => strictEq x (data r.field))
       | .vStr s => strContains s (toStringV (data r.field))
       | _ => false)
  else true

/-- evaluateCondition of the submission form page: a missing or disabled
conditional block, or an empty rule list, means always satisfied; else the
rule results are combined with the declared logical operator, AND being
the default for a missing operator string. -/
def evaluateCondition (data : String → Value) (c : Option Conditional) : Bool :=
  match c with
  | none => true
  | some c =>
    if !c.enabled || c.rules.isEmpty then true
    else if (if c.logicalOperator = "" then "AND" else c.logicalOperator) = "AND" then
      (c.rules.map (evalRule data)).all id
    else
      (c.rules.map (evalRule data)).any id

/-- The validation sub-schema of a field (min, max, minLength, maxLength,
pattern, message), per the field schema of the Form model. -/
structure Validation where
  min : Option DecNum := none
  max : Option DecNum := none
  minLength : Option Nat := none
  maxLength : Option Nat := none
  pattern : Option String := none
  message : Option String := none

/-- The nestedForm sub-schema of a field: item-count bounds. -/
structure NestedFormCfg where
  minItems : Option Nat := none
  maxItems : Option Nat := none

/-- A form field as consumed by the validation routine of the submission
form page: id, type string, label, required and hidden flags, validation
rules, conditional block and nested-form bounds. -/
structure Field where
  id : String
  type : String
  label : String
  required : Bool := false
  hidden : Bool := false
  validation : Option Validation := none
  conditional : Option Conditional := none
  nestedForm : Option NestedFormCfg := none

/-- The length property a JavaScript value exposes: string length or array
length; none models undefined (comparisons with undefined are false). -/
def lengthV : Value → Option Nat
  | .vStr s => some s.length
  | .vArr l => some l.length
  | _ => none

/-- The email regex literal of the submission form page. -/
def emailRe : String := "^[^\\s@]+@[^\\s@]+\\.[^\\s@]+$"

/-- The phone regex literal of the submission form page. -/
def telRe : String := "^[\\d\\s\\-\\+\\(\\)]+$"

/-- The required check of validateForm: file and image fields need an
upload descriptor; other fields fail on a falsy value or an empty array. -/
def requiredErr (f : Field) (data : String → Value) (hasUpload : String → Bool) : Option String :=
  if f.required then
    if f.type = "file" || f.type = "image" then
      if ! hasUpload f.id then some (f.label ++ " is required") else none
    else
      if ! truthy (data f.id) ||
          (match data f.id with | .vArr l => l.isEmpty | _ => false) then
        some (f.label ++ " is required")
      else none
  else none

/-- The email-format check of validateForm, gated on a truthy value. -/
def emailErr (rt : String → String → Bool) (f : Field) (data : String → Value) : Option String :=
  if truthy (data f.id) && f.type = "email" then
    if ! rt emailRe (toStringV (data f.id)) then some "Please enter a valid email address" else none
  else none

/-- The URL check of validateForm (new URL throwing), gated on a truthy value. -/
def urlErr (urlOk : String → Bool) (f : Field) (data : String → Value) : Option String :=
  if truthy (data f.id) && f.type = "url" then
    if ! urlOk (toStringV (data f.id)) then some "Please enter a valid URL" else none
  else none

/-- The phone-format check of validateForm, gated on a truthy value. -/
def telErr (rt : String → String → Bool) (f : Field) (data : String → Value) : Option String :=
  if truthy (data f.id) && f.type = "tel" then
    if ! rt telRe (toStringV (data f.id)) then some "Please enter a valid phone number" else none
  else none

/-- The numeric minimum check: validation.min present (undefined check in
the source) and parseFloat of the value below it; NaN compares false. -/
def minErr (f : Field) (data : String → Value) : Option String :=
  if truthy (data f.id) then
    match f.validation with
    | some v =>
      match v.min with
      | some m =>
        match parseFloatV (data f.id) with
        | some x => if decLt x m then some ("Minimum value is " ++ jsNumToString m) else none
        | none => none
      | none => none
    | none => none
  else none

/-- The numeric maximum check, dual to the minimum check. -/
def maxErr (f : Field) (data : String → Value) : Option String :=
  if truthy (data f.id) then
    match f.validation with
    | some v =>
      match v.max with
      | some m =>
        match parseFloatV (data f.id) with
        | some x => if decLt m x then some ("Maximum value is " ++ jsNumToString m) else none
        | none => none
      | none => none
    | none => none
  else none

/-- The minLength check: the guard is JavaScript truthiness of the bound,
so a zero bound is skipped; a value without a length never fails. -/
def minLenErr (f : Field) (data : String → Value) : Option String :=
  if truthy (data f.id) then
    match f.validation with
    | some v =>
      match v.minLength with
      | some n =>
        if n ≠ 0 then
          match lengthV (data f.id) with
          | some l => if l < n then some ("Minimum " ++ toString n ++ " characters required") else none
          | none => none
        else none
      | none => none
    | none => none
  else none

/-- The maxLength check, dual to the minLength check. -/
def maxLenErr (f : Field) (data : String → Value) : Option String :=
  if truthy (data f.id) then
    match f.validation with
    | some v =>
      match v.maxLength with
      | some n =>
        if n ≠ 0 then
          match lengthV (data f.id) with
          | some l => if n < l then some ("Maximum " ++ toString n ++ " characters allowed") else none
          | none => none
        else none
      | none => none
    | none => none
  else none

/-- The regex-pattern check: a truthy pattern string is tested against the
value; on failure the configured message or the default is reported. -/
def patErr (rt : String → String → Bool) (f : Field) (data : String → Value) : Option String :=
  if truthy (data f.id) then
    match f.validation with
    | some v =>
      match v.pattern with
      | some p =>
        if p ≠ "" then
          if ! rt p (toStringV (data f.id)) then
            some (match v.message with
                  | some m => if m = "" then "Invalid format" else m
                  | none => "Invalid format")
          else none
        else none
      | none => none
    | none => none
  else none

/-- The nested-form minimum item-count check; a zero bound is falsy and skipped. -/
def nestedMinErr (f : Field) (nestedCount : String → Nat) : Option String :=
  if (f.type = "nested_form" || f.type = "repeater") then
    match f.nestedForm with
    | some cfg =>
      match cfg.minItems with
      | some k =>
        if k ≠ 0 && nestedCount f.id < k then
          some ("Minimum " ++ toString k ++ " items required")
        else none
      | none => none
    | none => none
  else none

/-- The nested-form maximum item-count check; a zero bound is falsy and skipped. -/
def nestedMaxErr (f : Field) (nestedCount : String → Nat) : Option String :=
  if (f.type = "nested_form" || f.type = "repeater") then
    match f.nestedForm with
    | some cfg =>
      match cfg.maxItems with
      | some k =>
        if k ≠ 0 && k < nestedCount f.id then
          some ("Maximum " ++ toString k ++ " items allowed")
        else none
      | none => none
    | none => none
  else none

/-- The per-field checks of validateForm in source order: required, email,
url, tel, min, max, minLength, maxLength, pattern, nested minItems and
nested maxItems. -/
def fieldChecks (rt : String → String → Bool) (urlOk : String → Bool)
    (data : String → Value) (hasUpload : String → Bool) (nestedCount : String → Nat)
    (f : Field) : List (Option String) :=
  [requiredErr f data hasUpload,
   emailErr rt f data,
   urlErr urlOk f data,
   telErr rt f data,
   minErr f data,
   maxErr f data,
   minLenErr f data,
   maxLenErr f data,
   patErr rt f data,
   nestedMinErr f nestedCount,
   nestedMaxErr f nestedCount]

/-- A later failing check assigns over the earlier message for the same
field key, exactly as the source assigns newErrors of the field id. -/
def assignOver (acc : Option String) (o : Option String) : Option String :=
  match o with
  | some m => some m
  | none => acc

/-- The error the source records for one field: each check in order either
leaves the entry or overwrites it. -/
def validateField (rt : String → String → Bool) (urlOk : String → Bool)
    (data : String → Value) (hasUpload : String → Bool) (nestedCount : String → Nat)
    (f : Field) : Option String :=
  (fieldChecks rt urlOk data hasUpload nestedCount f).foldl assignOver none

/-- validateForm of the submission form page over the current field list:
a field whose hidden flag is set or whose conditional block evaluates to
not satisfied is skipped entirely; every other field contributes its
validateField result, keyed by the field id. -/
def validateForm (rt : String → String → Bool) (urlOk : String → Bool)
    (fields : List Field) (data : String → Value)
    (hasUpload : String → Bool) (nestedCount : String → Nat) : List (String × String) :=
  fields.foldr
    (fun f acc =>
      if f.hidden || ! evaluateCondition data f.conditional then acc
      else
        match validateField rt urlOk data hasUpload nestedCount f with
        | some msg => (f.id, msg) :: acc
        | none => acc)
    []

/-- The last defined entry of a list of optional messages; this is what a
sequence of conditional assignments to one key leaves behind. -/
def lastSome : List (Option String) → Option String
  | [] => none
  | o :: rest =>
    match lastSome rest with
    | some m => some m
    | none => o

/-- The first defined entry of a list of optional messages. -/
def firstSome : List (Option String) → Option String
  | [] => none
  | o :: rest =>
    match o with
    | some m => some m
    | none => firstSome rest

/-- String.padStart of the decimal rendering of a number to five digits,
as in the save hook of the Submission model. -/
def pad5 (n : Nat) : String :=
  let s := toString n
  String.mk (List.replicate (5 - s.length) '0') ++ s

/-- The submission-number namespace of a period, the literal SUB- followed
by the period string and a dash, as built in the save hook. -/
def subTag (period : String) : String := "SUB-" ++ period ++ "-"

/-- Lexicographic comparison of character lists, the order by which the
database sorts submission-number strings descending. -/
def lexLt : List Char → List Char → Bool
  | [], [] => false
  | [], _ :: _ => true
  | _ :: _, [] => false
  | a :: as, b :: bs => if a < b then true else if b < a then false else lexLt as bs

/-- The findOne query with descending sort of the save hook: the greatest
stored submission number whose text starts with the period tag. -/
def lastMatching (existing : List String) (period : String) : Option String :=
  (existing.filter (fun s => isPrefixL (subTag period).data s.data)).foldl
    (fun acc s =>
      match acc with
      | none => some s
      | some m => if lexLt m.data s.data then some s else some m)
    none

/-- Split a character list at dashes, modelling String.split on a dash. -/
def splitDash : List Char → List (List Char)
  | [] => [[]]
  | c :: rest =>
    let r := splitDash rest
    if c = '-' then [] :: r
    else
      match r with
      | [] => [[c]]
      | h :: t => (c :: h) :: t

/-- Models parseInt applied to the third dash component of a stored
submission number. Allocator-produced numbers always carry decimal digits
there; the NaN result on a malformed string is modelled as zero. -/
def parseSeqD (s : String) : Nat :=
  match (splitDash s.data).get? 2 with
  | some cs =>
    let ds := cs.takeWhile Char.isDigit
    if ds.isEmpty then 0 else digitsVal ds
  | none => 0

/-- The number computed by one execution of the save hook of the Submission
model against a snapshot of the stored numbers: read the greatest number of
the period, parse its sequence, add one (one when none exists), zero-pad. -/
def allocNumber (existing : List String) (period : String) : String :=
  match lastMatching existing period with
  | none => subTag period ++ pad5 1
  | some last => subTag period ++ pad5 (parseSeqD last + 1)

/-- One in-flight save of the hook: the number it has read (none before the
findOne query resolves) and whether its insert has been written. -/
structure AllocProc where
  num : Option String := none
  wrote : Bool := false
deriving DecidableEq

/-- Shared store of submission numbers plus two concurrent saves. -/
structure RaceState where
  store : List String
  a : AllocProc
  b : AllocProc
deriving DecidableEq

/-- Advance one save by one step: first the read step computes the number
from the current store (the findOne plus the arithmetic of the hook), then
the write step inserts it; a finished save does nothing. The read and the
write are separate awaited operations in the source, so other saves may
interleave between them. -/
def stepAlloc (period : String) (store : List String) (p : AllocProc) : List String × AllocProc :=
  match p.num with
  | none => (store, { p with num := some (allocNumber store period) })
  | some n => if p.wrote then (store, p) else (store ++ [n], { p with wrote := true })

/-- Advance the save picked by the scheduler. -/
def raceStep (period : String) (st : RaceState) (pick : Bool) : RaceState :=
  if pick then
    { st with store := (stepAlloc period st.store st.a).1, a := (stepAlloc period st.store st.a).2 }
  else
    { st with store := (stepAlloc period st.store st.b).1, b := (stepAlloc period st.store st.b).2 }

/-- Run a schedule of interleaved steps of the two saves. -/
def runSched (period : String) (init : RaceState) (sched : List Bool) : RaceState :=
  sched.foldl (raceStep period) init

/-- Two fresh concurrent saves over an empty store. -/
def initRace : RaceState := { store := [], a := {}, b := {} }

/-- A workflow action, per the stage schema of the Workflow model: target
stage and a flag requiring a comment. -/
structure WfAction where
  id : String
  name : String
  nextStage : String
  requireComment : Bool := false
deriving DecidableEq

/-- A workflow stage with access restrictions and its action list. -/
structure WfStage where
  id : String
  name : String
  allowedRoles : List String := []
  allowedUsers : List Nat := []
  actions : List WfAction := []
deriving DecidableEq

/-- A workflow: stage list, initial stage and final stage set. -/
structure Workflow where
  name : String
  stages : List WfStage
  initialStage : String
  finalStages : List String
deriving DecidableEq

/-- The declared stage ids of a workflow. -/
def Workflow.stageIds (wf : Workflow) : List String :=
  wf.stages.map (fun st => st.id)

/-- The authenticated actor consumed by the permission checks. -/
structure Actor where
  id : Nat
  role : String
deriving DecidableEq

/-- A form-level policy with a public flag, as on viewForm and submitForm.
The field named public in the schema is rendered publicFlag here. -/
structure PublicPolicy where
  publicFlag : Bool := false
  roles : List String := []
  users : List Nat := []
deriving DecidableEq

/-- A submission-level policy, as on editSubmissions, viewSubmissions and
deleteSubmissions: roles, users and the ownSubmissionsOnly flag. -/
structure OwnPolicy where
  roles : List String := []
  users : List Nat := []
  ownSubmissionsOnly : Bool := true
deriving DecidableEq

/-- The permission block of a form. -/
structure FormPermissions where
  viewForm : PublicPolicy := {}
  submitForm : PublicPolicy := {}
  editSubmissions : OwnPolicy := {}
  viewSubmissions : OwnPolicy := {}
  deleteSubmissions : OwnPolicy := {}
deriving DecidableEq

/-- The form settings consulted by the submission controller. -/
structure FormSettings where
  requireLogin : Bool := true
  allowMultipleSubmissions : Bool := false
deriving DecidableEq

/-- The master-detail block of a form. -/
structure MasterFormCfg where
  formId : Nat
  linkField : String := ""
  cascadeDelete : Bool := false
deriving DecidableEq

/-- A form document, restricted to the fields the verified operations
consult: type string, master-detail block, permissions and settings. -/
structure Form where
  id : Nat
  type : String := "standard"
  masterForm : Option MasterFormCfg := none
  permissions : FormPermissions := {}
  settings : FormSettings := {}
  isActive : Bool := true
deriving DecidableEq

/-- canSubmit of the Form model: public grants, then the anonymous case
when login is not required, then the user and role lists of the submitForm
policy. There is no branch for the admin role in this method. -/
def canSubmit (f : Form) (user : Option Actor) : Bool :=
  if f.permissions.submitForm.publicFlag then true
  else if user.isNone && ! f.settings.requireLogin then true
  else
    match user with
    | none => false
    | some u =>
      f.permissions.submitForm.users.contains u.id ||
      f.permissions.submitForm.roles.contains u.role

/-- canView of the Form model: public, then users, then roles. -/
def canView (f : Form) (u : Actor) : Bool :=
  if f.permissions.viewForm.publicFlag then true
  else f.permissions.viewForm.users.contains u.id ||
       f.permissions.viewForm.roles.contains u.role

/-- One entry of the append-only workflow history of a submission. -/
structure HistoryEntry where
  stage : String
  user : Nat
  action : String
  comment : Option String := none
  timestamp : Nat := 0
deriving DecidableEq

/-- One entry of the append-only audit log of a submission. -/
structure AuditEntry where
  user : Nat
  action : String
  field : String
  oldValue : String
  newValue : String
  timestamp : Nat := 0
deriving DecidableEq

/-- A submission document, restricted to the fields the verified
operations read or write; the data map and file descriptors are omitted
because no verified claim consults them. -/
structure Submission where
  id : Nat
  form : Nat
  submittedBy : Nat
  status : String := "submitted"
  currentStage : String := "submitted"
  workflowHistory : List HistoryEntry := []
  auditLog : List AuditEntry := []
  priority : String := "medium"
  completedAt : Option Nat := none
  completedBy : Option Nat := none
  lastModifiedBy : Option Nat := none
  submissionNumber : Option String := none
  parentSubmission : Option Nat := none
  masterSubmission : Option Nat := none
  isDeleted : Bool := false
  deletedAt : Option Nat := none
  deletedBy : Option Nat := none
  organization : String := "default"
  updatedAt : Nat := 0
deriving DecidableEq

/-- The save hook of the Submission model: stamp updatedAt; on a new
document without a submission number, read the greatest stored number of
the current period and assign the next one. The status of the document is
not consulted. -/
def preSave (now : Nat) (existing : List String) (period : String)
    (isNew : Bool) (s : Submission) : Submission :=
  let s1 := { s with updatedAt := now }
  if s1.submissionNumber = none ∧ isNew = true then
    { s1 with submissionNumber := some (allocNumber existing period) }
  else s1

/-- The updateStatus method of the Submission model: set the status, push
a workflow-history entry recording the change, push an audit-log entry,
stamp lastModifiedBy. -/
def updateStatus (now uid : Nat) (newStatus : String) (comment : Option String)
    (s : Submission) : Submission :=
  { s with
    status := newStatus,
    workflowHistory := s.workflowHistory ++
      [{ stage := s.currentStage, user := uid,
         action := "Status changed from " ++ s.status ++ " to " ++ newStatus,
         comment := comment, timestamp := now }],
    auditLog := s.auditLog ++
      [{ user := uid, action := "status_change", field := "status",
         oldValue := s.status, newValue := newStatus, timestamp := now }],
    lastModifiedBy := some uid }

/-- The request body of the status-update endpoint; absent or falsy fields
are modelled as none. -/
structure StatusUpdateBody where
  status : Option String := none
  currentStage : Option String := none
  comment : Option String := none
  priority : Option String := none
deriving DecidableEq

/-- The error responses of the submission controller. -/
inductive ApiErr where
  | notFound (msg : String)
  | forbidden (msg : String)
  | badRequest (msg : String)
deriving DecidableEq

/-- updateSubmissionStatus of the submission controller: after the
existence check it pushes a history entry built from the body, then, when
a status is given, calls the updateStatus method (which pushes a second
history entry), then applies the body stage and priority and the
completion stamps, and saves. No workflow, stage or action document is
consulted anywhere in this endpoint. -/
def applyStatusUpdate (now uid : Nat) (body : StatusUpdateBody)
    (s : Submission) : Submission :=
  let entry : HistoryEntry :=
    { stage := body.currentStage.getD s.currentStage, user := uid,
      action := body.status.getD "updated", comment := body.comment,
      timestamp := now }
  let s1 := { s with workflowHistory := s.workflowHistory ++ [entry] }
  let s2 := match body.status with
    | some st => updateStatus now uid st body.comment s1
    | none => s1
  let s3 := match body.currentStage with
    | some cs => { s2 with currentStage := cs }
    | none => s2
  let s4 := match body.priority with
    | some p => { s3 with priority := p }
    | none => s3
  if body.status = some "completed" ∨ body.status = some "approved" then
    { s4 with completedAt := some now, completedBy := some uid }
  else s4

/-- The endpoint wrapper: the existence check, then the state update of
applyStatusUpdate, then the save. -/
def updateSubmissionStatus (now uid : Nat) (body : StatusUpdateBody)
    (sub : Option Submission) : Except ApiErr Submission :=
  match sub with
  | none => .error (.notFound "Submission not found")
  | some s =>
    if s.isDeleted then .error (.notFound "Submission not found")
    else .ok (applyStatusUpdate now uid body s)

/-- The delete authorization of the deleteSubmission endpoint: admin, or
the submitter when the policy is own-submissions-only, or the role and
user lists of the deleteSubmissions policy. -/
def canDelete (f : Form) (u : Actor) (s : Submission) : Bool :=
  u.role == "admin" ||
  (s.submittedBy == u.id && f.permissions.deleteSubmissions.ownSubmissionsOnly) ||
  f.permissions.deleteSubmissions.roles.contains u.role ||
  f.permissions.deleteSubmissions.users.contains u.id

/-- Whether the cascade branch of deleteSubmission fires: the form type is
master and its master-detail block enables cascadeDelete. -/
def cascadeOn (f : Form) : Bool :=
  f.type == "master" &&
    (match f.masterForm with
     | some m => m.cascadeDelete
     | none => false)

/-- Soft-delete stamps applied to one document. -/
def softDelete (now uid : Nat) (t : Submission) : Submission :=
  { t with isDeleted := true, deletedAt := some now, deletedBy := some uid }

/-- deleteSubmission of the submission controller: look up the target,
refuse when absent or already deleted or unauthorized; soft-delete the
target; when the cascade branch fires, soft-delete every document whose
masterSubmission equals the target id (the updateMany call). Documents
linked only through parentSubmission are not part of that query. -/
def deleteSubmission (now : Nat) (u : Actor) (f : Form)
    (db : List Submission) (tid : Nat) : Except ApiErr (List Submission) :=
  match db.find? (fun t => t.id == tid) with
  | none => .error (.notFound "Submission not found")
  | some s =>
    if s.isDeleted then .error (.notFound "Submission not found")
    else if ! canDelete f u s then
      .error (.forbidden "Not authorized to delete this submission")
    else
      .ok (db.map (fun t =>
        if t.id = tid then softDelete now u.id t
        else if cascadeOn f = true ∧ t.masterSubmission = some tid then
          softDelete now u.id t
        else t))

/-- The ten operator names recognized by the switch of evaluateCondition. -/
def knownOperators : List String :=
  ["equals", "not_equals", "contains", "not_contains", "greater_than",
   "less_than", "is_empty", "is_not_empty", "in", "not_in"]

/-! Concrete fixtures used by the closed theorems below. The workflow is
the seeded Standard Approval Workflow of the repository; the submissions
and forms instantiate the scenarios of the specification. -/

/-- A regex collaborator that accepts everything; the fixtures below never
reach a pattern check. -/
def rtTrue : String → String → Bool := fun _ _ => true

/-- A URL parser collaborator that accepts everything. -/
def urlTrue : String → Bool := fun _ => true

/-- No uploaded file descriptors. -/
def noUpload : String → Bool := fun _ => false

/-- No staged nested submissions. -/
def zeroNested : String → Nat := fun _ => 0

/-- Scenario A rule: show the field when the other field equals x. -/
def hideRule : CondRule := { field := "other", operator := "equals", value := .vStr "x" }

/-- Scenario A conditional block of the required field. -/
def nameCond : Conditional := { enabled := true, rules := [hideRule], logicalOperator := "AND" }

/-- Scenario A: a required text field hidden by a rule on another field. -/
def nameField : Field :=
  { id := "name", type := "text", label := "Name", required := true, conditional := some nameCond }

/-- Scenario A: the referenced field, currently empty. -/
def otherField : Field := { id := "other", type := "text", label := "Other" }

/-- Scenario A field list. -/
def scenarioAFields : List Field := [nameField, otherField]

/-- Scenario A data snapshot: every field holds the empty string. -/
def scenarioAData : String → Value := fun _ => .vStr ""

/-- A field whose value violates both its numeric minimum and its
minimum length. -/
def qtyField : Field :=
  { id := "qty", type := "number", label := "Qty",
    validation := some { min := some { mant := 5 }, minLength := some 2 } }

/-- Data snapshot for the qty field: the string 3. -/
def qtyData : String → Value := fun _ => .vStr "3"

/-- A conditional rule with an operator outside the recognized set. -/
def badRule : CondRule := { field := "a", operator := "matches", value := .vStr "x" }

/-- A recognized rule that evaluates to false on the snapshot below. -/
def falseRule : CondRule := { field := "a", operator := "equals", value := .vStr "x" }

/-- An AND conditional mixing the unrecognized and the recognized rule. -/
def condMixed : Conditional :=
  { enabled := true, rules := [badRule, falseRule], logicalOperator := "AND" }

/-- Data snapshot for the mixed conditional: the field holds the empty string. -/
def dataMixed : String → Value := fun _ => .vStr ""

/-- The reject action of the seeded review stage, requiring a comment. -/
def rejectAction : WfAction :=
  { id := "reject", name := "Reject", nextStage := "rejected", requireComment := true }

/-- The review stage of the seeded approval workflow. -/
def reviewStage : WfStage :=
  { id := "review", name := "Under Review", allowedRoles := ["manager", "admin"],
    actions :=
      [{ id := "approve", name := "Approve", nextStage := "approved" },
       rejectAction,
       { id := "return", name := "Return to Draft", nextStage := "draft", requireComment := true }] }

/-- The seeded Standard Approval Workflow. -/
def seededWorkflow : Workflow :=
  { name := "Standard Approval Workflow",
    stages :=
      [{ id := "draft", name := "Draft", allowedRoles := ["user", "manager", "admin"],
         actions := [{ id := "submit", name := "Submit for Review", nextStage := "review" }] },
       reviewStage,
       { id := "approved", name := "Approved", allowedRoles := ["admin"] },
       { id := "rejected", name := "Rejected", allowedRoles := ["admin"],
         actions := [{ id := "reopen", name := "Reopen", nextStage := "draft", requireComment := true }] }],
    initialStage := "draft",
    finalStages := ["approved", "rejected"] }

/-- A submission sitting at the review stage. -/
def subReview : Submission :=
  { id := 1, form := 1, submittedBy := 2, status := "in_review", currentStage := "review",
    workflowHistory := [{ stage := "submitted", user := 2, action := "submitted", timestamp := 1 }] }

/-- Scenario C request body: reject with no comment. -/
def rejectBody : StatusUpdateBody :=
  { status := some "rejected", currentStage := some "rejected", comment := none }

/-- An admin actor. -/
def adminActor : Actor := { id := 9, role := "admin" }

/-- A form whose submitForm policy is not public and lists no role or user. -/
def lockedForm : Form := { id := 1 }

/-- A form whose submitForm policy is public. -/
def publicForm : Form :=
  { id := 2, permissions := { submitForm := { publicFlag := true } } }

/-- A draft submission without a number, about to be saved for the first time. -/
def draftSub : Submission :=
  { id := 3, form := 1, submittedBy := 2, status := "draft", currentStage := "draft" }

/-- A submission that already carries a number. -/
def numberedSub : Submission :=
  { id := 4, form := 1, submittedBy := 2, submissionNumber := some "SUB-202405-00009" }

/-- Scenario D master form with cascade delete enabled. -/
def masterFormD : Form :=
  { id := 10, type := "master", masterForm := some { formId := 99, cascadeDelete := true } }

/-- Scenario D master submission. -/
def masterSub : Submission := { id := 1, form := 10, submittedBy := 2 }

/-- Scenario D first detail submission, linked through masterSubmission. -/
def detailSub1 : Submission := { id := 2, form := 11, submittedBy := 2, masterSubmission := some 1 }

/-- Scenario D second detail submission, linked through masterSubmission. -/
def detailSub2 : Submission := { id := 3, form := 11, submittedBy := 2, masterSubmission := some 1 }

/-- Scenario D unrelated submission. -/
def unrelatedSub : Submission := { id := 4, form := 12, submittedBy := 2 }

/-- A nested child linked only through parentSubmission. -/
def childSub : Submission := { id := 5, form := 13, submittedBy := 2, parentSubmission := some 1 }

/-- Scenario D collection. -/
def scenarioDdb : List Submission :=
  [masterSub, detailSub1, detailSub2, unrelatedSub, childSub]

/-- The expected collection after deleting the scenario D master. -/
def scenarioDout : List Submission :=
  [softDelete 50 9 masterSub, softDelete 50 9 detailSub1, softDelete 50 9 detailSub2,
   unrelatedSub, childSub]

/-! Helper lemmas shared by the claim theorems. -/

/-- A Boolean all that comes out false has a false element. -/
theorem all_false_exists {α : Type} (p : α → Bool) :
    ∀ (l : List α), l.all p = false → ∃ x ∈ l, p x = false := by
  intro l h
  induction l with
  | nil => simp [List.all_nil] at h
  | cons a t ih =>
    rw [List.all_cons, Bool.and_eq_false_iff] at h
    rcases h with h | h
    · exact ⟨a, List.mem_cons_self a t, h⟩
    · obtain ⟨x, hx, hpx⟩ := ih h
      exact ⟨x, List.mem_cons_of_mem a hx, hpx⟩

/-- An unrecognized operator falls through to the default branch of the
switch, which returns true. -/
theorem evalRule_of_unknown (data : String → Value) (r : CondRule)
    (h : r.operator ∉ knownOperators) : evalRule data r = true := by
  simp only [knownOperators, List.mem_cons, List.not_mem_nil, or_false, not_or] at h
  obtain ⟨e1, e2, e3, e4, e5, e6, e7, e8, e9, e10⟩ := h
  simp only [evalRule, if_neg e1, if_neg e2, if_neg e3, if_neg e4, if_neg e5,
    if_neg e6, if_neg e7, if_neg e8, if_neg e9, if_neg e10]

/-- Unfolding equation for validateForm on a cons cell. -/
theorem validateForm_cons (rt : String → String → Bool) (urlOk : String → Bool)
    (f : Field) (rest : List Field) (data : String → Value)
    (hasUpload : String → Bool) (nestedCount : String → Nat) :
    validateForm rt urlOk (f :: rest) data hasUpload nestedCount =
      if f.hidden || ! evaluateCondition data f.conditional then
        validateForm rt urlOk rest data hasUpload nestedCount
      else
        match validateField rt urlOk data hasUpload nestedCount f with
        | some msg => (f.id, msg) :: validateForm rt urlOk rest data hasUpload nestedCount
        | none => validateForm rt urlOk rest data hasUpload nestedCount := rfl

/-- Every error key reported by validateForm is the id of some field of
the list. -/
theorem validateForm_keys (rt : String → String → Bool) (urlOk : String → Bool)
    (fields : List Field) (data : String → Value)
    (hasUpload : String → Bool) (nestedCount : String → Nat) :
    ∀ e ∈ validateForm rt urlOk fields data hasUpload nestedCount,
      e.1 ∈ fields.map (fun f => f.id) := by
  induction fields with
  | nil => intro e he; cases he
  | cons f rest ih =>
    intro e he
    rw [validateForm_cons] at he
    by_cases hc : (f.hidden || ! evaluateCondition data f.conditional) = true
    · rw [if_pos hc] at he
      exact List.mem_cons_of_mem _ (ih e he)
    · rw [if_neg hc] at he
      cases hvf : validateField rt urlOk data hasUpload nestedCount f with
      | none =>
        rw [hvf] at he
        exact List.mem_cons_of_mem _ (ih e he)
      | some m =>
        rw [hvf] at he
        rcases List.mem_cons.mp he with rfl | he2
        · exact List.mem_cons_self _ _
        · exact List.mem_cons_of_mem _ (ih e he2)

/-- A field whose conditional block evaluates to not satisfied contributes
no entry to the error set, provided field ids are unique in the list. -/
theorem validateForm_skip_hidden (rt : String → String → Bool) (urlOk : String → Bool)
    (fields : List Field) (data : String → Value)
    (hasUpload : String → Bool) (nestedCount : String → Nat) (field : Field)
    (hmem : field ∈ fields)
    (hnodup : (fields.map (fun f => f.id)).Nodup)
    (hhid : evaluateCondition data field.conditional = false) :
    ∀ e ∈ validateForm rt urlOk fields data hasUpload nestedCount, e.1 ≠ field.id := by
  revert hmem hnodup
  induction fields with
  | nil => intro hmem _; cases hmem
  | cons f rest ih =>
    intro hmem hnodup
    simp only [List.map_cons, List.nodup_cons] at hnodup
    intro e he
    rcases List.mem_cons.mp hmem with rfl | hmem2
    · have hc : (field.hidden || ! evaluateCondition data field.conditional) = true := by
        rw [hhid]; simp
      rw [validateForm_cons, if_pos hc] at he
      have hk := validateForm_keys rt urlOk rest data hasUpload nestedCount e he
      intro heq
      exact hnodup.1 (heq ▸ hk)
    · rw [validateForm_cons] at he
      by_cases hc : (f.hidden || ! evaluateCondition data f.conditional) = true
      · rw [if_pos hc] at he
        exact ih hmem2 hnodup.2 e he
      · rw [if_neg hc] at he
        cases hvf : validateField rt urlOk data hasUpload nestedCount f with
        | none =>
          rw [hvf] at he
          exact ih hmem2 hnodup.2 e he
        | some m =>
          rw [hvf] at he
          rcases List.mem_cons.mp he with rfl | he2
          · intro heq
            have hin : field.id ∈ rest.map (fun g => g.id) :=
              List.mem_map_of_mem (fun g => g.id) hmem2
            have heq2 : f.id = field.id := heq
            exact hnodup.1 (heq2.symm ▸ hin)
          · exact ih hmem2 hnodup.2 e he2

/-- A chain of conditional overwrites keeps the last defined message. -/
theorem foldl_assignOver (l : List (Option String)) (acc : Option String) :
    l.foldl assignOver acc =
      match lastSome l with
      | some m => some m
      | none => acc := by
  induction l generalizing acc with
  | nil => rfl
  | cons o rest ih =>
    rw [List.foldl_cons, ih, lastSome]
    cases lastSome rest with
    | some m => rfl
    | none => cases o <;> rfl

/-! Claim theorems. -/

/-- C1: the save hook of the Submission model computes the next
submission number by reading the greatest stored number and adding one,
in two separate steps. Under the interleaving in which both concurrent
saves read before either writes, both receive SUB-202405-00001, so N
concurrent creations in one period do not always receive pairwise
distinct numbers; the sequential schedule does produce distinct numbers,
exhibiting the read-then-write race. -/
theorem sequenceRace_duplicate :
    (runSched "202405" initRace [true, false, true, false]).a.num = some "SUB-202405-00001" ∧
    (runSched "202405" initRace [true, false, true, false]).b.num = some "SUB-202405-00001" ∧
    (runSched "202405" initRace [true, true, false, false]).a.num = some "SUB-202405-00001" ∧
    (runSched "202405" initRace [true, true, false, false]).b.num = some "SUB-202405-00002" := by
  decide

/-- C5 counterexample: canSubmit of the Form model has no admin branch,
so an admin actor matching neither the user list nor the role list of a
non-public submitForm policy is denied, refuting the claim that an admin
actor is never denied for any action including submitForm. -/
theorem adminDenied_submitForm_cex :
    adminActor.role = "admin" ∧ canSubmit lockedForm (some adminActor) = false := by
  decide

/-- C5 amended: for submitForm the resolution is public flag first, then
the anonymous case when login is not required, then the user list, then
the role list, with no admin override: a logged-in actor is allowed
exactly when the policy is public or lists the actor id or role, and a
public resource is accessible to every actor. -/
theorem canSubmit_resolution (f : Form) (a : Actor) :
    (f.permissions.submitForm.publicFlag = true → ∀ u, canSubmit f u = true) ∧
    (canSubmit f (some a) = true ↔
      (f.permissions.submitForm.publicFlag = true ∨
       a.id ∈ f.permissions.submitForm.users ∨
       a.role ∈ f.permissions.submitForm.roles)) := by
  constructor
  · intro hp u
    simp [canSubmit, hp]
  · by_cases hp : f.permissions.submitForm.publicFlag = true
    · simp [canSubmit, hp]
    · have hcs : canSubmit f (some a) =
          (f.permissions.submitForm.users.contains a.id ||
           f.permissions.submitForm.roles.contains a.role) := by
        simp only [canSubmit, if_neg hp, Option.isNone_some, Bool.false_and,
          Bool.false_eq_true, if_false]
      rw [hcs, Bool.or_eq_true]
      constructor
      · rintro (h | h)
        · exact Or.inr (Or.inl (List.elem_iff.mp h))
        · exact Or.inr (Or.inr (List.elem_iff.mp h))
      · rintro (h | h | h)
        · exact absurd h hp
        · exact Or.inl (List.elem_iff.mpr h)
        · exact Or.inr (List.elem_iff.mpr h)

/-- C5 witness: a public form admits the admin actor. -/
theorem canSubmit_resolution_w : canSubmit publicForm (some adminActor) = true :=
  (canSubmit_resolution publicForm adminActor).1 rfl (some adminActor)

/-- C7 counterexample: the save hook assigns a submission number on the
first save of every new document regardless of status, so a draft
acquires a number at its first persistence, refuting the claim that
draft persistence does not assign one. -/
theorem draftAssignedNumber_cex :
    draftSub.status = "draft" ∧ draftSub.submissionNumber = none ∧
    (preSave 5 [] "202405" true draftSub).submissionNumber = some "SUB-202405-00001" := by
  decide

/-- C7 amended: the submission number is assigned exactly once, at the
first persistence of the document regardless of its status, and a
document that already carries a number never has it changed by a later
save. -/
theorem submissionNumber_firstSave_immutable (now : Nat) (existing : List String)
    (period : String) (s : Submission) :
    (s.submissionNumber = none →
      (preSave now existing period true s).submissionNumber =
        some (allocNumber existing period)) ∧
    (∀ n isNew, s.submissionNumber = some n →
      (preSave now existing period isNew s).submissionNumber = some n) := by
  constructor
  · intro h
    simp [preSave, h]
  · intro n isNew h
    simp [preSave, h]

/-- C7 witness: the amended statement at a fresh draft and at a document
that already carries a number. -/
theorem submissionNumber_firstSave_immutable_w :
    (preSave 5 [] "202405" true draftSub).submissionNumber =
      some (allocNumber [] "202405") ∧
    (preSave 7 [] "202405" true numberedSub).submissionNumber =
      some "SUB-202405-00009" :=
  ⟨(submissionNumber_firstSave_immutable 5 [] "202405" draftSub).1 rfl,
   (submissionNumber_firstSave_immutable 7 [] "202405" numberedSub).2
     "SUB-202405-00009" true rfl⟩

/-- The error set restricted to a key that is the id of no field of the
list is empty. -/
theorem validateForm_filter_nil (rt : String → String → Bool) (urlOk : String → Bool)
    (rest : List Field) (data : String → Value)
    (hasUpload : String → Bool) (nestedCount : String → Nat) (x : String)
    (hx : x ∉ rest.map (fun f => f.id)) :
    (validateForm rt urlOk rest data hasUpload nestedCount).filter
      (fun e => e.1 == x) = [] := by
  rw [List.filter_eq_nil_iff]
  intro e he hbe
  exact hx ((beq_iff_eq.mp hbe) ▸
    validateForm_keys rt urlOk rest data hasUpload nestedCount e he)

/-- C6: a field whose conditional rule set evaluates to not satisfied is
skipped by validateForm before any required check runs, so the error set
carries no entry under the id of that field (field ids being unique in a
form); in particular no required error is reported for it. -/
theorem hiddenField_noRequiredError (rt : String → String → Bool) (urlOk : String → Bool)
    (fields : List Field) (data : String → Value)
    (hasUpload : String → Bool) (nestedCount : String → Nat) (field : Field)
    (hmem : field ∈ fields)
    (hnodup : (fields.map (fun f => f.id)).Nodup)
    (hhid : evaluateCondition data field.conditional = false) :
    (validateForm rt urlOk fields data hasUpload nestedCount).all
      (fun e => ! (e.1 == field.id)) = true := by
  rw [List.all_eq_true]
  intro e he
  have h := validateForm_skip_hidden rt urlOk fields data hasUpload nestedCount field
    hmem hnodup hhid e he
  simp [h]

/-- C6 witness (scenario A): the required name field is hidden by an
equals rule on the empty other field, the whole submission validates with
no error, and no entry carries the name key. -/
theorem hiddenField_noRequiredError_w :
    evaluateCondition scenarioAData nameField.conditional = false ∧
    validateForm rtTrue urlTrue scenarioAFields scenarioAData noUpload zeroNested = [] ∧
    (validateForm rtTrue urlTrue scenarioAFields scenarioAData noUpload zeroNested).all
      (fun e => ! (e.1 == nameField.id)) = true :=
  ⟨by decide, by decide,
   hiddenField_noRequiredError rtTrue urlTrue scenarioAFields scenarioAData noUpload
     zeroNested nameField (List.mem_cons_self _ _) (by decide) (by decide)⟩

/-- C9 counterexample: the qty field value 3 violates both the numeric
minimum (the first failing check, message Minimum value is 5) and the
minimum length; the recorded error is the message of the later minLength
check, not that of the first failing check, refuting the claim that
validation stops at the first failing rule of a field. -/
theorem lastErrorWins_cex :
    firstSome (fieldChecks rtTrue urlTrue qtyData noUpload zeroNested qtyField) =
      some "Minimum value is 5" ∧
    validateField rtTrue urlTrue qtyData noUpload zeroNested qtyField =
      some "Minimum 2 characters required" ∧
    validateForm rtTrue urlTrue [qtyField] qtyData noUpload zeroNested =
      [("qty", "Minimum 2 characters required")] ∧
    ("Minimum 2 characters required" : String) ≠ "Minimum value is 5" := by
  decide

/-- C9 amended: within one field the checks run in declaration order and
each failing check overwrites the recorded message, so the error set
holds at most one entry for the field, whose message is that of the last
failing check in order (not the first); across fields all errors are
still collected. -/
theorem validateField_lastError (rt : String → String → Bool) (urlOk : String → Bool)
    (fields : List Field) (data : String → Value)
    (hasUpload : String → Bool) (nestedCount : String → Nat) (field : Field)
    (hmem : field ∈ fields)
    (hnodup : (fields.map (fun f => f.id)).Nodup)
    (hvis : (field.hidden || ! evaluateCondition data field.conditional) = false) :
    validateField rt urlOk data hasUpload nestedCount field =
      lastSome (fieldChecks rt urlOk data hasUpload nestedCount field) ∧
    (validateForm rt urlOk fields data hasUpload nestedCount).filter
        (fun e => e.1 == field.id) =
      (match validateField rt urlOk data hasUpload nestedCount field with
       | some m => [(field.id, m)]
       | none => []) := by
  constructor
  · rw [validateField, foldl_assignOver]
    cases lastSome (fieldChecks rt urlOk data hasUpload nestedCount field) <;> rfl
  · revert hmem hnodup
    induction fields with
    | nil => intro hmem _; cases hmem
    | cons f rest ih =>
      intro hmem hnodup
      simp only [List.map_cons, List.nodup_cons] at hnodup
      rcases List.mem_cons.mp hmem with rfl | hmem2
      · rw [validateForm_cons, if_neg (by rw [hvis]; exact Bool.false_ne_true)]
        cases hvf : validateField rt urlOk data hasUpload nestedCount field with
        | some m =>
          rw [List.filter_cons]
          have hbeq : ((field.id, m).1 == field.id) = true := by
            exact beq_iff_eq.mpr rfl
          rw [if_pos hbeq]
          rw [validateForm_filter_nil rt urlOk rest data hasUpload nestedCount field.id hnodup.1]
        | none =>
          exact validateForm_filter_nil rt urlOk rest data hasUpload nestedCount
            field.id hnodup.1
      · have hne : (f.id == field.id) = false := by
          rw [beq_eq_false_iff_ne]
          intro heq
          exact hnodup.1 (heq ▸ List.mem_map_of_mem (fun g => g.id) hmem2)
        rw [validateForm_cons]
        by_cases hc : (f.hidden || ! evaluateCondition data f.conditional) = true
        · rw [if_pos hc]
          exact ih hmem2 hnodup.2
        · rw [if_neg hc]
          cases hvf : validateField rt urlOk data hasUpload nestedCount f with
          | some m =>
            rw [List.filter_cons, if_neg (by simp [hne])]
            exact ih hmem2 hnodup.2
          | none =>
            exact ih hmem2 hnodup.2

/-- C9 witness: the amended statement at the qty fixture. -/
theorem validateField_lastError_w :
    validateField rtTrue urlTrue qtyData noUpload zeroNested qtyField =
      lastSome (fieldChecks rtTrue urlTrue qtyData noUpload zeroNested qtyField) ∧
    (validateForm rtTrue urlTrue [qtyField] qtyData noUpload zeroNested).filter
        (fun e => e.1 == qtyField.id) =
      (match validateField rtTrue urlTrue qtyData noUpload zeroNested qtyField with
       | some m => [(qtyField.id, m)]
       | none => []) :=
  validateField_lastError rtTrue urlTrue [qtyField] qtyData noUpload zeroNested qtyField
    (List.mem_cons_self _ _) (by decide) (by decide)

/-- C10: a rule with an operator outside the ten recognized names takes
the default switch branch and evaluates to true; under the AND combinator
the rule set can only come out not satisfied through some recognized rule
that evaluates to false, so the unrecognized rule never causes hiding. -/
theorem unknownOperator_satisfied (data : String → Value) (c : Conditional) (r : CondRule)
    (hop : r.operator ∉ knownOperators)
    (_hmem : r ∈ c.rules)
    (hAND : c.logicalOperator = "AND")
    (hfalse : evaluateCondition data (some c) = false) :
    evalRule data r = true ∧
    ∃ r2 ∈ c.rules, evalRule data r2 = false ∧ r2.operator ∈ knownOperators := by
  refine ⟨evalRule_of_unknown data r hop, ?_⟩
  simp only [evaluateCondition] at hfalse
  by_cases he : (!c.enabled || c.rules.isEmpty) = true
  · rw [if_pos he] at hfalse; cases hfalse
  · rw [if_neg he, hAND,
      if_neg (by decide : ¬("AND" : String) = ""), if_pos rfl] at hfalse
    obtain ⟨b, hb, hbf⟩ := all_false_exists id _ hfalse
    obtain ⟨r2, hr2, rfl⟩ := List.mem_map.mp hb
    by_cases hk : r2.operator ∈ knownOperators
    · exact ⟨r2, hr2, hbf, hk⟩
    · rw [show evalRule data r2 = true from evalRule_of_unknown data r2 hk] at hbf
      cases hbf

/-- C10 witness: the mixed conditional with an unrecognized matches rule
and a false equals rule comes out hidden through the equals rule alone. -/
theorem unknownOperator_satisfied_w :
    evalRule dataMixed badRule = true ∧
    ∃ r2 ∈ condMixed.rules, evalRule dataMixed r2 = false ∧ r2.operator ∈ knownOperators :=
  unknownOperator_satisfied dataMixed condMixed badRule (by decide)
    (List.mem_cons_self _ _) rfl (by decide)

/-- The endpoint succeeds on every existing, not deleted submission and
returns the applied update. -/
theorem updateSubmissionStatus_ok (now uid : Nat) (body : StatusUpdateBody)
    (s : Submission) (hdel : s.isDeleted = false) :
    updateSubmissionStatus now uid body (some s) =
      Except.ok (applyStatusUpdate now uid body s) := by
  simp [updateSubmissionStatus, hdel]

/-- The workflow history after applyStatusUpdate: the endpoint entry is
always appended, and a second entry from the updateStatus method follows
whenever the body carries a status. -/
theorem applyStatusUpdate_history (now uid : Nat) (body : StatusUpdateBody)
    (s : Submission) :
    (applyStatusUpdate now uid body s).workflowHistory =
      s.workflowHistory ++
        [{ stage := body.currentStage.getD s.currentStage, user := uid,
           action := body.status.getD "updated", comment := body.comment,
           timestamp := now }] ++
        (match body.status with
         | some st =>
           [{ stage := s.currentStage, user := uid,
              action := "Status changed from " ++ s.status ++ " to " ++ st,
              comment := body.comment, timestamp := now }]
         | none => []) := by
  cases hst : body.status <;> cases hcs : body.currentStage <;> cases hp : body.priority <;>
    simp [applyStatusUpdate, updateStatus, hst, hcs, hp,
      apply_ite (fun t : Submission => t.workflowHistory), ite_self]

/-- C2: the status-update endpoint never consults the workflow document,
so even for a submission sitting at a stage whose invoked action requires
a comment, the call with a blank comment succeeds instead of failing with
a validation error; the submission state is changed, not left unchanged. -/
theorem blankComment_noValidationError (now uid : Nat) (body : StatusUpdateBody)
    (s : Submission) (wf : Workflow) (st : WfStage) (act : WfAction)
    (hdel : s.isDeleted = false)
    (_hst : st ∈ wf.stages) (_hcur : s.currentStage = st.id)
    (_hact : act ∈ st.actions) (_hreq : act.requireComment = true)
    (_hblank : body.comment = none) :
    ∃ s2, updateSubmissionStatus now uid body (some s) = Except.ok s2 :=
  ⟨applyStatusUpdate now uid body s, updateSubmissionStatus_ok now uid body s hdel⟩

/-- C2 witness (scenario C): the seeded reject action requires a comment,
yet the reject call without a comment succeeds. -/
theorem blankComment_noValidationError_w :
    ∃ s2, updateSubmissionStatus 100 7 rejectBody (some subReview) = Except.ok s2 :=
  blankComment_noValidationError 100 7 rejectBody subReview seededWorkflow reviewStage
    rejectAction rfl (by decide) rfl (by decide) rfl rfl

/-- C3: a status-carrying call of the status-update endpoint appends two
workflow-history entries, one pushed by the endpoint and one pushed by
the updateStatus method it calls, refuting the claim of exactly one new
entry per successful transition; the previous entries are preserved
unchanged as a prefix. -/
theorem statusTransition_appendsTwo (now uid : Nat) (body : StatusUpdateBody)
    (s : Submission) (st : String)
    (hdel : s.isDeleted = false) (hst : body.status = some st) :
    ∃ s2, updateSubmissionStatus now uid body (some s) = Except.ok s2 ∧
      s2.workflowHistory.length = s.workflowHistory.length + 2 ∧
      s2.workflowHistory.take s.workflowHistory.length = s.workflowHistory := by
  refine ⟨applyStatusUpdate now uid body s,
    updateSubmissionStatus_ok now uid body s hdel, ?_, ?_⟩
  · rw [applyStatusUpdate_history, hst]
    simp [List.length_append]
  · rw [applyStatusUpdate_history, hst, List.append_assoc]
    exact List.take_left _ _

/-- C3 witness (scenario C with a comment-free reject): the history grows
by two entries. -/
theorem statusTransition_appendsTwo_w :
    ∃ s2, updateSubmissionStatus 100 7 rejectBody (some subReview) = Except.ok s2 ∧
      s2.workflowHistory.length = subReview.workflowHistory.length + 2 ∧
      s2.workflowHistory.take subReview.workflowHistory.length =
        subReview.workflowHistory :=
  statusTransition_appendsTwo 100 7 rejectBody subReview "rejected" rfl rfl

/-- C4: the status-update endpoint validates the requested stage against
no workflow: for any stage string outside the declared stage ids of the
workflow of the form, the call succeeds and the submission currentStage
becomes that unknown stage — a silent application instead of a workflow
configuration error. -/
theorem unknownStage_silentlyApplied (now uid : Nat) (s : Submission)
    (wf : Workflow) (c : String)
    (hdel : s.isDeleted = false)
    (_hunk : c ∉ wf.stageIds) :
    ∃ s2, updateSubmissionStatus now uid
        { status := none, currentStage := some c, comment := none, priority := none }
        (some s) = Except.ok s2 ∧ s2.currentStage = c :=
  ⟨applyStatusUpdate now uid
      { status := none, currentStage := some c, comment := none, priority := none } s,
   updateSubmissionStatus_ok now uid _ s hdel,
   by simp [applyStatusUpdate]⟩

/-- C4 witness: a stage name declared on no stage of the seeded workflow
is applied without error. -/
theorem unknownStage_silentlyApplied_w :
    ∃ s2, updateSubmissionStatus 100 7
        { status := none, currentStage := some "no-such-stage", comment := none,
          priority := none }
        (some subReview) = Except.ok s2 ∧ s2.currentStage = "no-such-stage" :=
  unknownStage_silentlyApplied 100 7 subReview seededWorkflow "no-such-stage" rfl
    (by decide)

/-- C8: when the deleted submission belongs to a master form with cascade
delete enabled, the resulting collection soft-deletes the target and
exactly the documents whose masterSubmission equals the target id; every
other document, including documents linked only through parentSubmission,
is returned unchanged. -/
theorem cascadeDelete_exact (now : Nat) (u : Actor) (f : Form) (db : List Submission)
    (tid : Nat) (out : List Submission)
    (hcas : cascadeOn f = true)
    (hok : deleteSubmission now u f db tid = Except.ok out) :
    out.length = db.length ∧
    ∀ i (h1 : i < db.length) (h2 : i < out.length),
      ((db.get ⟨i, h1⟩).masterSubmission = some tid →
        (out.get ⟨i, h2⟩).isDeleted = true) ∧
      ((db.get ⟨i, h1⟩).id = tid → (out.get ⟨i, h2⟩).isDeleted = true) ∧
      ((db.get ⟨i, h1⟩).id ≠ tid → (db.get ⟨i, h1⟩).masterSubmission ≠ some tid →
        out.get ⟨i, h2⟩ = db.get ⟨i, h1⟩) := by
  unfold deleteSubmission at hok
  cases hfind : db.find? (fun t => t.id == tid) with
  | none => rw [hfind] at hok; cases hok
  | some s0 =>
    rw [hfind] at hok
    cases hd : s0.isDeleted with
    | true => simp [hd] at hok
    | false =>
      cases hcd : canDelete f u s0 with
      | false => simp [hd, hcd] at hok
      | true =>
        simp only [hd, hcd, Bool.false_eq_true, if_false, Bool.not_true,
          Except.ok.injEq] at hok
        subst hok
        refine ⟨by simp, ?_⟩
        intro i h1 h2
        have hg : (db.map (fun t =>
            if t.id = tid then softDelete now u.id t
            else if cascadeOn f = true ∧ t.masterSubmission = some tid then
              softDelete now u.id t
            else t)).get ⟨i, h2⟩ =
            (if (db.get ⟨i, h1⟩).id = tid then softDelete now u.id (db.get ⟨i, h1⟩)
             else if cascadeOn f = true ∧ (db.get ⟨i, h1⟩).masterSubmission = some tid then
               softDelete now u.id (db.get ⟨i, h1⟩)
             else db.get ⟨i, h1⟩) := by
          simp [List.get_eq_getElem, List.getElem_map]
        rw [hg]
        refine ⟨?_, ?_, ?_⟩
        · intro hm
          by_cases hid : (db.get ⟨i, h1⟩).id = tid
          · rw [if_pos hid]; rfl
          · rw [if_neg hid, if_pos ⟨hcas, hm⟩]; rfl
        · intro hid
          rw [if_pos hid]; rfl
        · intro hid hm
          rw [if_neg hid, if_neg (fun hc => hm hc.2)]

/-- C8 witness (scenario D): deleting the master soft-deletes both linked
detail submissions while the unrelated submission and the nested child
linked only through parentSubmission stay unchanged. -/
theorem cascadeDelete_exact_w :
    deleteSubmission 50 adminActor masterFormD scenarioDdb 1 = Except.ok scenarioDout ∧
    (scenarioDout.get ⟨1, by decide⟩).isDeleted = true ∧
    (scenarioDout.get ⟨2, by decide⟩).isDeleted = true ∧
    scenarioDout.get ⟨3, by decide⟩ = scenarioDdb.get ⟨3, by decide⟩ ∧
    scenarioDout.get ⟨4, by decide⟩ = scenarioDdb.get ⟨4, by decide⟩ :=
  ⟨rfl,
   ((cascadeDelete_exact 50 adminActor masterFormD scenarioDdb 1 scenarioDout
      (by decide) rfl).2 1 (by decide) (by decide)).1 (by decide),
   ((cascadeDelete_exact 50 adminActor masterFormD scenarioDdb 1 scenarioDout
      (by decide) rfl).2 2 (by decide) (by decide)).1 (by decide),
   ((cascadeDelete_exact 50 adminActor masterFormD scenarioDdb 1 scenarioDout
      (by decide) rfl).2 3 (by decide) (by decide)).2.2 (by decide) (by decide),
   ((cascadeDelete_exact 50 adminActor masterFormD scenarioDdb 1 scenarioDout
      (by decide) rfl).2 4 (by decide) (by decide)).2.2 (by decide) (by decide)⟩

end FormBuilder

